import Mathlib

/-!
Verification of the trend-detection and severity-classification engine of the
B_Ellis force-plate reporting repository.

The numeric code of the repository works on Python floats; the embedding works
on the real numbers, the standard idealisation (the decimal literals 0.2, 1.5,
2.0 and the metric values used in concrete runs are all exactly representable
or within rounding slack that never crosses a comparison boundary in the
properties proved here).  `np.std` / `pandas.Series.std` become square roots of
the mean squared deviation (divisor n for numpy, divisor n - 1 for the pandas
default `ddof=1`), which forces the real-valued definitions below to be
noncomputable; concrete runs are evaluated through explicit lemmas instead.

Sources embedded:
  * `demo_report.py` —
    `classify_severity` (lines 296-305), `calculate_swc` (292-294) and the
    per-(athlete, rule) body of `categorize_athletes` (317-380);
    `generate_real_report.py` lines 272-354 are the same code verbatim.
  * `generate_html_report.py` — its module-level analysis loop (169-259),
    which differs from `demo_report.py` only in the minimum-record gate
    (`< 4` instead of `< 5`) and in writing the severity thresholds as
    literals.
  * `force_plate_dashboard.py` — `calculate_swc` (143-149),
    `classify_severity` (157-168) and the per-rule part of `evaluate_athlete`
    (186-234).
  * `generate_training_report.py` — `calculate_swc` (150-156).

In `demo_report.categorize_athletes` the baseline split index is
`int(len(metric_data) * 0.6)`.  With IEEE doubles, `0.6` is the double
5404319552844595 / 2^53 (slightly below 3/5), and for every list length
n < 2^50 the product `n * 0.6` rounds to a double whose floor is exactly
`3 * n / 5` (natural division): when 5 ∣ n the true product lies within a
third of an ulp below the representable integer 3n/5 and rounds up to it,
and otherwise the exact value 3n/5 has fractional part at least 1/5, far
beyond the rounding error.  The embedding therefore uses `3 * n / 5`.
-/

/-- Severity tier, as the strings 'critical' / 'warning' / 'caution' /
'normal' used by `demo_report.py`, `generate_real_report.py` and
`generate_html_report.py`. -/
inductive Severity : Type
  | critical
  | warning
  | caution
  | normal
deriving DecidableEq, Repr

/-- Severity colour, as the strings 'red' / 'orange' / 'yellow' / 'green'
used by `force_plate_dashboard.py` and `generate_training_report.py`. -/
inductive DColor : Type
  | red
  | orange
  | yellow
  | green
deriving DecidableEq, Repr

/-- The colour naming each severity tier (red = critical, orange = warning,
yellow = caution, green = normal), used to compare the two classifier
variants. -/
def severity_color : Severity → DColor
  | .critical => .red
  | .warning => .orange
  | .caution => .yellow
  | .normal => .green

/-- Thresholds table of `demo_report.py` lines 156-160 (the same literals in
`generate_real_report.py` and `generate_training_report.py`). -/
structure Thresholds : Type where
  red : ℝ
  orange : ℝ
  yellow : ℝ

/-- SEVERITY_THRESHOLDS = {'red': 2.0, 'orange': 1.5, 'yellow': 1.0}. -/
noncomputable def SEVERITY_THRESHOLDS : Thresholds :=
  { red := 2.0, orange := 1.5, yellow := 1.0 }

/-- demo_report.classify_severity (lines 296-305): first match from most
severe down, returning the tier (the emoji of the returned pair is the
injective image of the tier and is modelled separately by `flag_emoji`). -/
noncomputable def classify_severity (deviation swc : ℝ) : Severity :=
  if |deviation| > SEVERITY_THRESHOLDS.red * swc then .critical
  else if |deviation| > SEVERITY_THRESHOLDS.orange * swc then .warning
  else if |deviation| > SEVERITY_THRESHOLDS.yellow * swc then .caution
  else .normal

/-- Modelled from the spec (section 4.2 severity table): tier by comparing
|deviation| against multiples of SWC, most to least severe, first match
wins. -/
noncomputable def spec_classify (deviation swc : ℝ) : Severity :=
  if |deviation| > 2.0 * swc then .critical
  else if |deviation| > 1.5 * swc then .warning
  else if |deviation| > 1.0 * swc then .caution
  else .normal

/-- force_plate_dashboard.classify_severity (lines 157-168): tested from the
least severe side with non-strict comparisons. -/
noncomputable def dashboard_classify (deviation swc : ℝ) : DColor :=
  if |deviation| ≤ swc then .green
  else if |deviation| ≤ 1.5 * swc then .yellow
  else if |deviation| ≤ 2 * swc then .orange
  else .red

/-- Arithmetic mean, the meaning of `pandas.Series.mean` on a series of n
values (sum divided by n). -/
noncomputable def mean (l : List ℝ) : ℝ := l.sum / l.length

/-- np.std: square root of the mean of the squared deviations from the mean
(population standard deviation, divisor n). -/
noncomputable def np_std (l : List ℝ) : ℝ :=
  Real.sqrt ((l.map (fun x => (x - mean l) ^ 2)).sum / l.length)

/-- pandas.Series.std with the default ddof = 1: square root of the sum of
squared deviations divided by n - 1 (sample standard deviation). -/
noncomputable def pd_std (l : List ℝ) : ℝ :=
  Real.sqrt ((l.map (fun x => (x - mean l) ^ 2)).sum / ((l.length : ℝ) - 1))

/-- demo_report.calculate_swc (lines 292-294): `0.2 * np.std(data)`.
`generate_real_report.py` (268-270) and `generate_html_report.py` (169-170)
are identical. -/
noncomputable def calculate_swc (data : List ℝ) : ℝ := 0.2 * np_std data

/-- generate_training_report.calculate_swc (lines 150-156) with the default
method '0.2sd': `0.2 * baseline_series.std()`, pandas sample std. -/
noncomputable def training_calculate_swc (baseline_series : List ℝ) : ℝ :=
  0.2 * pd_std baseline_series

/-- force_plate_dashboard.calculate_swc (lines 143-149) with the default
method '0.2sd': `0.2 * baseline_data.std()`, pandas sample std. -/
noncomputable def dashboard_calculate_swc (baseline_data : List ℝ) : ℝ :=
  0.2 * pd_std baseline_data

/-- Modelled from the spec (section 4.1 and glossary): the population
standard deviation of the baseline window, divisor n. -/
noncomputable def population_std (l : List ℝ) : ℝ :=
  Real.sqrt ((l.map (fun x => (x - mean l) ^ 2)).sum / l.length)

/-- Modelled from the spec's contrast case: the sample standard deviation,
divisor n - 1. -/
noncomputable def sample_std (l : List ℝ) : ℝ :=
  Real.sqrt ((l.map (fun x => (x - mean l) ^ 2)).sum / ((l.length : ℝ) - 1))

/-- One test record of one athlete: its date (days, the only use of dates is
ordering and the 180-day cutoff) and the metric columns, `none` standing for
a missing (NaN) entry. Athlete name, position and jersey number are display
plumbing with no effect on the engine and are not carried. -/
structure Row : Type where
  date : Int
  values : String → Option ℝ

/-- One decision rule as the source dictionaries carry it: the metric list,
the trend string ('decrease', 'increase' or 'absolute'; the evaluator treats
any string other than 'absolute' and 'decrease' as 'increase', exactly as the
source's if/elif/else does) and the literal threshold (read only when the
trend is 'absolute'). -/
structure DecisionRule : Type where
  metrics : List String
  trend : String
  threshold : ℝ

/-- `athlete_data[metric].dropna()`: the metric's non-missing values of the
athlete's rows, in row (date) order. -/
def dropna (rows : List Row) (m : String) : List ℝ :=
  rows.filterMap (fun r => r.values m)

/-- `int(len(metric_data) * 0.6)` of `demo_report.py` line 338, exactly
`3 * n / 5` in natural division for every feasible length (see the header
comment for the floating-point analysis). -/
def splitIndex (n : ℕ) : ℕ := 3 * n / 5

/-- Body of the inner metric loop of `demo_report.categorize_athletes`
(lines 327-365) for a single metric: `none` means the loop would set
`all_flagged = False` and break (missing column, fewer than 3 non-missing
values, baseline shorter than 2, absolute threshold not exceeded, or a
normal tier); `some sev` is the severity the loop records for this metric. -/
noncomputable def evalMetric (cols : List String) (rows : List Row)
    (rule : DecisionRule) (m : String) : Option Severity :=
  if m ∉ cols then none
  else
    let metric_data := dropna rows m
    if metric_data.length < 3 then none
    else
      let split := splitIndex metric_data.length
      let baseline := metric_data.take split
      let current := metric_data.getLastD 0
      if baseline.length < 2 then none
      else
        let baseline_mean := mean baseline
        let swc := calculate_swc baseline
        if rule.trend = "absolute" then
          if current > rule.threshold then some .critical else none
        else
          let deviation :=
            if rule.trend = "decrease" then baseline_mean - current
            else current - baseline_mean
          let severity := classify_severity deviation swc
          if severity = .normal then none else some severity

/-- Modelled from the spec (sections 4.2 and 4.3): the severity tier a single
metric independently produces for an athlete — `none` when the metric cannot
be evaluated (missing column or insufficient data), and for an absolute rule
a non-exceeding current value rendered as the `normal` tier. The evaluator's
loop body `evalMetric` is proved to be this tier with `normal` mapped to a
break. -/
noncomputable def metricTier (cols : List String) (rows : List Row)
    (rule : DecisionRule) (m : String) : Option Severity :=
  if m ∉ cols then none
  else
    let metric_data := dropna rows m
    if metric_data.length < 3 then none
    else
      let split := splitIndex metric_data.length
      let baseline := metric_data.take split
      let current := metric_data.getLastD 0
      if baseline.length < 2 then none
      else
        let baseline_mean := mean baseline
        let swc := calculate_swc baseline
        if rule.trend = "absolute" then
          some (if current > rule.threshold then .critical else .normal)
        else
          let deviation :=
            if rule.trend = "decrease" then baseline_mean - current
            else current - baseline_mean
          some (classify_severity deviation swc)

/-- `sev_order = {'critical': 0, 'warning': 1, 'caution': 2, 'normal': 3}`
(demo_report.py line 325). -/
def sev_order : Severity → ℕ
  | .critical => 0
  | .warning => 1
  | .caution => 2
  | .normal => 3

/-- `if sev_order[severity] < sev_order[worst_severity]: worst_severity =
severity` (demo_report.py lines 367-368). -/
def updateWorst (severity worst : Severity) : Severity :=
  if sev_order severity < sev_order worst then severity else worst

/-- The most severe tier of a list, the fold of `updateWorst` from the
initial `worst_severity = 'normal'`. -/
def worstOf (l : List Severity) : Severity := l.foldl (fun w s => updateWorst s w) .normal

/-- The metric loop of `demo_report.categorize_athletes` lines 327-368 over
the remaining metrics, carrying `worst_severity`: `none` when some metric
sets `all_flagged = False` and breaks, otherwise the final worst severity. -/
noncomputable def evalMetrics (cols : List String) (rows : List Row)
    (rule : DecisionRule) : List String → Severity → Option Severity
  | [], worst => some worst
  | m :: rest, worst =>
    match evalMetric cols rows rule m with
    | none => none
    | some severity => evalMetrics cols rows rule rest (updateWorst severity worst)

/-- Per-(athlete, rule) body of `demo_report.categorize_athletes` lines
317-380 (verbatim the same in `generate_real_report.py` lines 293-354):
the athlete's date-sorted rows are skipped entirely below 5 records, and
otherwise the athlete is flagged with the worst severity exactly when the
metric loop finishes with `all_flagged` still true. `some w` stands for the
appended flag entry with severity `w`; `none` for no flag. -/
noncomputable def categorize_athletes_eval (cols : List String)
    (rule : DecisionRule) (rows : List Row) : Option Severity :=
  if rows.length < 5 then none
  else evalMetrics cols rows rule rule.metrics .normal

/-- generate_html_report.classify_severity (lines 172-180): the same cascade
with the threshold multiples written as literals 2, 1.5, 1. -/
noncomputable def html_classify_severity (deviation swc : ℝ) : Severity :=
  if |deviation| > 2 * swc then .critical
  else if |deviation| > 1.5 * swc then .warning
  else if |deviation| > 1 * swc then .caution
  else .normal

/-- Metric-loop body of the module-level analysis loop of
`generate_html_report.py` (lines 200-244), identical to `evalMetric` except
that it calls its own `classify_severity`. -/
noncomputable def html_evalMetric (cols : List String) (rows : List Row)
    (rule : DecisionRule) (m : String) : Option Severity :=
  if m ∉ cols then none
  else
    let metric_data := dropna rows m
    if metric_data.length < 3 then none
    else
      let split := splitIndex metric_data.length
      let baseline := metric_data.take split
      let current := metric_data.getLastD 0
      if baseline.length < 2 then none
      else
        let baseline_mean := mean baseline
        let swc := calculate_swc baseline
        if rule.trend = "absolute" then
          if current > rule.threshold then some .critical else none
        else
          let deviation :=
            if rule.trend = "decrease" then baseline_mean - current
            else current - baseline_mean
          let severity := html_classify_severity deviation swc
          if severity = .normal then none else some severity

/-- Metric loop of `generate_html_report.py` lines 200-247. -/
noncomputable def html_evalMetrics (cols : List String) (rows : List Row)
    (rule : DecisionRule) : List String → Severity → Option Severity
  | [], worst => some worst
  | m :: rest, worst =>
    match html_evalMetric cols rows rule m with
    | none => none
    | some severity => html_evalMetrics cols rows rule rest (updateWorst severity worst)

/-- Per-(athlete, rule) body of the analysis loop of
`generate_html_report.py` lines 190-259: the record gate is
`len(athlete_data) < 4` (line 193), one lower than the other variants. -/
noncomputable def html_categorize_eval (cols : List String)
    (rule : DecisionRule) (rows : List Row) : Option Severity :=
  if rows.length < 4 then none
  else html_evalMetrics cols rows rule rule.metrics .normal

/-- The emoji dictionary `{'critical': '🔴', 'warning': '🟠', 'caution':
'🟡'}` looked up at the flag's severity (demo_report.py line 379): a partial
map, a KeyError on any other tier. -/
def flag_emoji : Severity → Option String
  | .critical => some "🔴"
  | .warning => some "🟠"
  | .caution => some "🟡"
  | .normal => none

/-- The sort-key dictionary `{'critical': 0, 'warning': 1, 'caution': 2}`
looked up at each flagged athlete's severity (demo_report.py line 382): a
partial map, a KeyError on any other tier. -/
def flag_sort_key : Severity → Option ℕ
  | .critical => some 0
  | .warning => some 1
  | .caution => some 2
  | .normal => none

/-- `athlete_data['Date'].max()` over the athlete's rows. -/
def maxDate (rows : List Row) : Int := (rows.map Row.date).foldl max 0

/-- One metric's step of the rule loop of
`force_plate_dashboard.evaluate_athlete` (lines 188-215): `none` when the
loop `continue`s past the metric (missing column, fewer than 3 baseline
values, or a cluster-trend rule), otherwise the colour classified from the
metric's deviation. `baseline_rows` are the rows within the 180-day window,
`current` the athlete's last row. -/
noncomputable def dashboard_metric_severity (cols : List String)
    (baseline_rows : List Row) (current : Row) (rule : DecisionRule)
    (m : String) : Option DColor :=
  if m ∉ cols then none
  else
    let baseline_values := dropna baseline_rows m
    if baseline_values.length < 3 then none
    else
      let baseline_mean := mean baseline_values
      let swc := dashboard_calculate_swc baseline_values
      let current_value := (current.values m).getD 0
      if rule.trend = "decrease" then
        some (dashboard_classify (baseline_mean - current_value) swc)
      else if rule.trend = "increase" then
        some (dashboard_classify (current_value - baseline_mean) swc)
      else none

/-- The metric scan of one rule in `force_plate_dashboard.evaluate_athlete`
(lines 188-234): the first metric whose severity is yellow or worse is
appended as the rule's flag and the scan breaks; a green metric or a skipped
metric moves on to the next one. -/
noncomputable def dashboard_scan (cols : List String) (baseline_rows : List Row)
    (current : Row) (rule : DecisionRule) : List String → Option (String × DColor)
  | [] => none
  | m :: rest =>
    match dashboard_metric_severity cols baseline_rows current rule m with
    | none => dashboard_scan cols baseline_rows current rule rest
    | some c =>
      if c = .green then dashboard_scan cols baseline_rows current rule rest
      else some (m, c)

/-- One rule of `force_plate_dashboard.evaluate_athlete` (lines 177-234):
baseline rows are those within `baseline_period_days = 180` of the athlete's
most recent date, the current test is the last row, and the rule is flagged
at the first non-green metric. -/
noncomputable def dashboard_flag_rule (cols : List String) (rows : List Row)
    (rule : DecisionRule) : Option (String × DColor) :=
  let cutoff := maxDate rows - 180
  let baseline_rows := rows.filter (fun r => cutoff ≤ r.date)
  let current := rows.getLastD ⟨0, fun _ => none⟩
  dashboard_scan cols baseline_rows current rule rule.metrics

/-- Metric columns of the concrete runs. -/
def cols0 : List String := ["m1", "m2"]

/-- A two-metric decrease rule, the shape of rules 1, 2, 4 and 6 of
DECISION_RULES. -/
def rule0 : DecisionRule := { metrics := ["m1", "m2"], trend := "decrease", threshold := 0 }

/-- A one-metric absolute rule with threshold 10, the shape of rule 7 of
DECISION_RULES. -/
def ruleA : DecisionRule := { metrics := ["m1"], trend := "absolute", threshold := 10 }

/-- A qualifying athlete with 5 records: each metric has 4 non-missing values
(the third test is missing), so its baseline window is the first 2 of them;
m1 declines from mean 120 to 113 (deviation 7, SWC 4: warning) and m2 from
mean 220 to 215 (deviation 5, SWC 4: caution). -/
def rows0 : List Row :=
  [ { date := 1, values := fun s => if s = "m1" then some 100 else if s = "m2" then some 200 else none },
    { date := 2, values := fun s => if s = "m1" then some 140 else if s = "m2" then some 240 else none },
    { date := 3, values := fun _ => none },
    { date := 4, values := fun s => if s = "m1" then some 120 else if s = "m2" then some 220 else none },
    { date := 5, values := fun s => if s = "m1" then some 113 else if s = "m2" then some 215 else none } ]

/-- A 4-record athlete whose values qualify maximally for `rule0`: both
metrics drop far below their baseline (deviation 100 and 200 against SWC 4). -/
def rows4 : List Row :=
  [ { date := 1, values := fun s => if s = "m1" then some 100 else if s = "m2" then some 200 else none },
    { date := 2, values := fun s => if s = "m1" then some 140 else if s = "m2" then some 240 else none },
    { date := 3, values := fun s => if s = "m1" then some 120 else if s = "m2" then some 220 else none },
    { date := 4, values := fun s => if s = "m1" then some 20 else if s = "m2" then some 20 else none } ]

/-- A 5-record athlete for the dashboard: the first test is older than the
180-day baseline window, the second is missing both metrics, so each metric
has 3 baseline values; m1 ends exactly on its baseline mean (green), m2 ends
8 below a baseline with sample SWC 1.4 (red). -/
def rowsD : List Row :=
  [ { date := 0, values := fun s => if s = "m1" then some 99 else if s = "m2" then some 0 else none },
    { date := 399, values := fun _ => none },
    { date := 400, values := fun s => if s = "m1" then some 0 else if s = "m2" then some 15 else none },
    { date := 401, values := fun s => if s = "m1" then some 4 else if s = "m2" then some 13 else none },
    { date := 402, values := fun s => if s = "m1" then some 2 else if s = "m2" then some 2 else none } ]

theorem sqrt_eval {x y : ℝ} (hy : 0 ≤ y) (h : y ^ 2 = x) : Real.sqrt x = y := by
  rw [← h, Real.sqrt_sq hy]

theorem np_std_pair (a b : ℝ) : np_std [a, b] = |a - b| / 2 := by
  have h : (([a, b].map (fun x => (x - mean [a, b]) ^ 2)).sum / ([a, b].length : ℝ))
      = ((a - b) / 2) ^ 2 := by
    simp only [mean, List.map_cons, List.map_nil, List.sum_cons, List.sum_nil,
      List.length_cons, List.length_nil]
    push_cast
    ring
  rw [np_std, h, Real.sqrt_sq_eq_abs, abs_div]
  norm_num

theorem classify_eq_spec (d s : ℝ) : classify_severity d s = spec_classify d s := rfl

theorem html_classify_eq_spec (d s : ℝ) :
    html_classify_severity d s = spec_classify d s := by
  unfold html_classify_severity spec_classify
  norm_num

theorem dashboard_classify_eq_spec (d s : ℝ) :
    dashboard_classify d s = severity_color (spec_classify d s) := by
  have h0 : (0 : ℝ) ≤ |d| := abs_nonneg d
  unfold dashboard_classify spec_classify severity_color
  split_ifs with h1 h2 h3 h4 h5 h6 h7 h8 h9 <;>
    first
      | rfl
      | (exfalso; push_neg at *; linarith)

theorem evalMetric_ne_some_normal (cols : List String) (rows : List Row)
    (rule : DecisionRule) (m : String) :
    evalMetric cols rows rule m ≠ some .normal := by
  simp only [evalMetric]
  split_ifs <;> simp_all

theorem evalMetric_eq_tier_bind (cols : List String) (rows : List Row)
    (rule : DecisionRule) (m : String) :
    evalMetric cols rows rule m
      = (metricTier cols rows rule m).bind
          (fun t => if t = .normal then none else some t) := by
  simp only [evalMetric, metricTier]
  split_ifs <;> simp_all

theorem evalMetric_some_iff (cols : List String) (rows : List Row)
    (rule : DecisionRule) (m : String) (s : Severity) :
    evalMetric cols rows rule m = some s ↔
      metricTier cols rows rule m = some s ∧ s ≠ .normal := by
  rw [evalMetric_eq_tier_bind]
  cases metricTier cols rows rule m with
  | none => simp
  | some t => cases t <;> cases s <;> simp

theorem evalMetric_ne_none_iff (cols : List String) (rows : List Row)
    (rule : DecisionRule) (m : String) :
    evalMetric cols rows rule m ≠ none ↔
      ∃ t, metricTier cols rows rule m = some t ∧ t ≠ .normal := by
  rw [Option.ne_none_iff_exists']
  constructor
  · rintro ⟨s, hs⟩
    exact ⟨s, (evalMetric_some_iff cols rows rule m s).mp hs⟩
  · rintro ⟨t, ht, hn⟩
    exact ⟨t, (evalMetric_some_iff cols rows rule m t).mpr ⟨ht, hn⟩⟩

theorem evalMetrics_isSome_iff (cols : List String) (rows : List Row)
    (rule : DecisionRule) :
    ∀ (ms : List String) (worst : Severity),
      (∃ w, evalMetrics cols rows rule ms worst = some w) ↔
        ∀ m ∈ ms, evalMetric cols rows rule m ≠ none := by
  intro ms
  induction ms with
  | nil => intro worst; simp [evalMetrics]
  | cons m rest ih =>
    intro worst
    cases h : evalMetric cols rows rule m with
    | none => simp [evalMetrics, h]
    | some sev => simp [evalMetrics, h, ih]

theorem evalMetrics_worst_eq (cols : List String) (rows : List Row)
    (rule : DecisionRule) :
    ∀ (ms : List String) (worst w : Severity),
      evalMetrics cols rows rule ms worst = some w →
      w = (ms.map (fun m => (evalMetric cols rows rule m).getD .normal)).foldl
            (fun acc s => updateWorst s acc) worst := by
  intro ms
  induction ms with
  | nil =>
    intro worst w h
    simp only [evalMetrics, Option.some.injEq] at h
    simp [← h]
  | cons m rest ih =>
    intro worst w h
    cases hm : evalMetric cols rows rule m with
    | none => rw [evalMetrics, hm] at h; exact absurd h (by simp)
    | some sev =>
      rw [evalMetrics, hm] at h
      simpa [hm] using ih _ _ h

theorem updateWorst_of_ne_normal (s : Severity) (h : s ≠ .normal) :
    updateWorst s .normal = s := by
  cases s with
  | normal => exact absurd rfl h
  | critical => rfl
  | warning => rfl
  | caution => rfl

theorem evalMetrics_preserves_ne_normal (cols : List String) (rows : List Row)
    (rule : DecisionRule) :
    ∀ (ms : List String) (worst w : Severity), worst ≠ .normal →
      evalMetrics cols rows rule ms worst = some w → w ≠ .normal := by
  intro ms
  induction ms with
  | nil =>
    intro worst w hw h
    simp only [evalMetrics, Option.some.injEq] at h
    exact h ▸ hw
  | cons m rest ih =>
    intro worst w hw h
    cases hm : evalMetric cols rows rule m with
    | none => rw [evalMetrics, hm] at h; exact absurd h (by simp)
    | some sev =>
      rw [evalMetrics, hm] at h
      have hs : sev ≠ .normal := fun e => evalMetric_ne_some_normal cols rows rule m (e ▸ hm)
      refine ih _ _ ?_ h
      unfold updateWorst
      split_ifs
      · exact hs
      · exact hw

theorem evalMetrics_cons_ne_normal (cols : List String) (rows : List Row)
    (rule : DecisionRule) (m : String) (rest : List String) (w : Severity)
    (h : evalMetrics cols rows rule (m :: rest) .normal = some w) :
    w ≠ .normal := by
  cases hm : evalMetric cols rows rule m with
  | none => rw [evalMetrics, hm] at h; exact absurd h (by simp)
  | some sev =>
    rw [evalMetrics, hm] at h
    have hs : sev ≠ .normal := fun e => evalMetric_ne_some_normal cols rows rule m (e ▸ hm)
    exact evalMetrics_preserves_ne_normal cols rows rule rest _ w
      (by rw [updateWorst_of_ne_normal sev hs]; exact hs) h

theorem metricTier_decrease_eq (cols : List String) (rows : List Row)
    (rule : DecisionRule) (m : String) (md b : List ℝ)
    (hm : m ∈ cols) (hdec : rule.trend = "decrease")
    (hmd : dropna rows m = md)
    (h3 : ¬ md.length < 3)
    (hb : md.take (splitIndex md.length) = b)
    (h2 : ¬ b.length < 2) :
    metricTier cols rows rule m
      = some (classify_severity (mean b - md.getLastD 0) (calculate_swc b)) := by
  have hab : ¬ rule.trend = "absolute" := by rw [hdec]; decide
  simp only [metricTier, hmd, hb]
  rw [if_neg (not_not_intro hm), if_neg h3, if_neg h2, if_neg hab, if_pos hdec]

theorem metricTier_increase_eq (cols : List String) (rows : List Row)
    (rule : DecisionRule) (m : String) (md b : List ℝ)
    (hm : m ∈ cols) (hinc : rule.trend = "increase")
    (hmd : dropna rows m = md)
    (h3 : ¬ md.length < 3)
    (hb : md.take (splitIndex md.length) = b)
    (h2 : ¬ b.length < 2) :
    metricTier cols rows rule m
      = some (classify_severity (md.getLastD 0 - mean b) (calculate_swc b)) := by
  have hab : ¬ rule.trend = "absolute" := by rw [hinc]; decide
  have hde : ¬ rule.trend = "decrease" := by rw [hinc]; decide
  simp only [metricTier, hmd, hb]
  rw [if_neg (not_not_intro hm), if_neg h3, if_neg h2, if_neg hab, if_neg hde]

theorem metricTier_absolute_eq (cols : List String) (rows : List Row)
    (rule : DecisionRule) (m : String) (md b : List ℝ)
    (hm : m ∈ cols) (habs : rule.trend = "absolute")
    (hmd : dropna rows m = md)
    (h3 : ¬ md.length < 3)
    (hb : md.take (splitIndex md.length) = b)
    (h2 : ¬ b.length < 2) :
    metricTier cols rows rule m
      = some (if md.getLastD 0 > rule.threshold then .critical else .normal) := by
  simp only [metricTier, hmd, hb]
  rw [if_neg (not_not_intro hm), if_neg h3, if_neg h2, if_pos habs]

theorem dashboard_metric_decrease_eq (cols : List String) (base_rows : List Row)
    (current : Row) (rule : DecisionRule) (m : String) (bv : List ℝ)
    (hm : m ∈ cols) (hdec : rule.trend = "decrease")
    (hbv : dropna base_rows m = bv) (h3 : ¬ bv.length < 3) :
    dashboard_metric_severity cols base_rows current rule m
      = some (dashboard_classify (mean bv - (current.values m).getD 0)
          (dashboard_calculate_swc bv)) := by
  simp only [dashboard_metric_severity, hbv]
  rw [if_neg (not_not_intro hm), if_neg h3, if_pos hdec]

theorem dashboard_metric_increase_eq (cols : List String) (base_rows : List Row)
    (current : Row) (rule : DecisionRule) (m : String) (bv : List ℝ)
    (hm : m ∈ cols) (hinc : rule.trend = "increase")
    (hbv : dropna base_rows m = bv) (h3 : ¬ bv.length < 3) :
    dashboard_metric_severity cols base_rows current rule m
      = some (dashboard_classify ((current.values m).getD 0 - mean bv)
          (dashboard_calculate_swc bv)) := by
  have hde : ¬ rule.trend = "decrease" := by rw [hinc]; decide
  simp only [dashboard_metric_severity, hbv]
  rw [if_neg (not_not_intro hm), if_neg h3, if_neg hde, if_pos hinc]

theorem tier_rows0_m1 : metricTier cols0 rows0 rule0 "m1" = some .warning := by
  rw [metricTier_decrease_eq cols0 rows0 rule0 "m1" [100, 140, 120, 113] [100, 140]
    (by decide) rfl rfl (by decide) rfl (by decide)]
  rw [show (([100, 140, 120, 113] : List ℝ).getLastD 0) = 113 from rfl,
    show mean [(100:ℝ), 140] = 120 by simp [mean]; norm_num,
    show calculate_swc [(100:ℝ), 140] = 4 by rw [calculate_swc, np_std_pair]; norm_num]
  unfold classify_severity SEVERITY_THRESHOLDS
  norm_num

theorem tier_rows0_m2 : metricTier cols0 rows0 rule0 "m2" = some .caution := by
  rw [metricTier_decrease_eq cols0 rows0 rule0 "m2" [200, 240, 220, 215] [200, 240]
    (by decide) rfl rfl (by decide) rfl (by decide)]
  rw [show (([200, 240, 220, 215] : List ℝ).getLastD 0) = 215 from rfl,
    show mean [(200:ℝ), 240] = 220 by simp [mean]; norm_num,
    show calculate_swc [(200:ℝ), 240] = 4 by rw [calculate_swc, np_std_pair]; norm_num]
  unfold classify_severity SEVERITY_THRESHOLDS
  norm_num

theorem eval_rows0_m1 : evalMetric cols0 rows0 rule0 "m1" = some .warning :=
  (evalMetric_some_iff cols0 rows0 rule0 "m1" .warning).mpr ⟨tier_rows0_m1, by decide⟩

theorem eval_rows0_m2 : evalMetric cols0 rows0 rule0 "m2" = some .caution :=
  (evalMetric_some_iff cols0 rows0 rule0 "m2" .caution).mpr ⟨tier_rows0_m2, by decide⟩

theorem demo_eval_rows0 : categorize_athletes_eval cols0 rule0 rows0 = some .warning := by
  unfold categorize_athletes_eval
  rw [if_neg (by decide : ¬ rows0.length < 5)]
  show evalMetrics cols0 rows0 rule0 ["m1", "m2"] .normal = some .warning
  simp only [evalMetrics, eval_rows0_m1, eval_rows0_m2]
  rfl

theorem tier_rows4_m1 : metricTier cols0 rows4 rule0 "m1" = some .critical := by
  rw [metricTier_decrease_eq cols0 rows4 rule0 "m1" [100, 140, 120, 20] [100, 140]
    (by decide) rfl rfl (by decide) rfl (by decide)]
  rw [show (([100, 140, 120, 20] : List ℝ).getLastD 0) = 20 from rfl,
    show mean [(100:ℝ), 140] = 120 by simp [mean]; norm_num,
    show calculate_swc [(100:ℝ), 140] = 4 by rw [calculate_swc, np_std_pair]; norm_num]
  unfold classify_severity SEVERITY_THRESHOLDS
  norm_num

theorem tier_rows4_m2 : metricTier cols0 rows4 rule0 "m2" = some .critical := by
  rw [metricTier_decrease_eq cols0 rows4 rule0 "m2" [200, 240, 220, 20] [200, 240]
    (by decide) rfl rfl (by decide) rfl (by decide)]
  rw [show (([200, 240, 220, 20] : List ℝ).getLastD 0) = 20 from rfl,
    show mean [(200:ℝ), 240] = 220 by simp [mean]; norm_num,
    show calculate_swc [(200:ℝ), 240] = 4 by rw [calculate_swc, np_std_pair]; norm_num]
  unfold classify_severity SEVERITY_THRESHOLDS
  norm_num

theorem eval_rows4_m1 : evalMetric cols0 rows4 rule0 "m1" = some .critical :=
  (evalMetric_some_iff cols0 rows4 rule0 "m1" .critical).mpr ⟨tier_rows4_m1, by decide⟩

theorem eval_rows4_m2 : evalMetric cols0 rows4 rule0 "m2" = some .critical :=
  (evalMetric_some_iff cols0 rows4 rule0 "m2" .critical).mpr ⟨tier_rows4_m2, by decide⟩

theorem html_evalMetric_eq (cols : List String) (rows : List Row)
    (rule : DecisionRule) (m : String) :
    html_evalMetric cols rows rule m = evalMetric cols rows rule m := by
  have hc : ∀ d s : ℝ, html_classify_severity d s = classify_severity d s := by
    intro d s; rw [html_classify_eq_spec, classify_eq_spec]
  simp only [html_evalMetric, evalMetric, hc]

theorem html_evalMetrics_eq (cols : List String) (rows : List Row)
    (rule : DecisionRule) :
    ∀ (ms : List String) (worst : Severity),
      html_evalMetrics cols rows rule ms worst = evalMetrics cols rows rule ms worst := by
  intro ms
  induction ms with
  | nil => intro worst; rfl
  | cons m rest ih =>
    intro worst
    simp only [html_evalMetrics, evalMetrics, html_evalMetric_eq]
    cases evalMetric cols rows rule m with
    | none => rfl
    | some sev => exact ih _

theorem html_eval_rows4 : html_categorize_eval cols0 rule0 rows4 = some .critical := by
  unfold html_categorize_eval
  rw [if_neg (by decide : ¬ rows4.length < 4)]
  rw [html_evalMetrics_eq]
  show evalMetrics cols0 rows4 rule0 ["m1", "m2"] .normal = some .critical
  simp only [evalMetrics, eval_rows4_m1, eval_rows4_m2]
  rfl

theorem pd_std_m1_val : pd_std [(0:ℝ), 4, 2] = 2 := by
  unfold pd_std
  exact sqrt_eval (by norm_num) (by simp [mean]; norm_num)

theorem pd_std_m2_val : pd_std [(15:ℝ), 13, 2] = 7 := by
  unfold pd_std
  exact sqrt_eval (by norm_num) (by simp [mean]; norm_num)

theorem dashD_base : rowsD.filter (fun r => (maxDate rowsD - 180) ≤ r.date) = rowsD.tail := rfl

theorem dash_m1_green :
    dashboard_metric_severity cols0 rowsD.tail (rowsD.getLastD ⟨0, fun _ => none⟩) rule0 "m1"
      = some .green := by
  rw [dashboard_metric_decrease_eq cols0 rowsD.tail (rowsD.getLastD ⟨0, fun _ => none⟩)
    rule0 "m1" [0, 4, 2] (by decide) rfl rfl (by decide)]
  rw [show (((rowsD.getLastD ⟨0, fun _ => none⟩).values "m1").getD 0) = 2 from rfl,
    show mean [(0:ℝ), 4, 2] = 2 by simp [mean]; norm_num,
    show dashboard_calculate_swc [(0:ℝ), 4, 2] = 0.4 by
      rw [dashboard_calculate_swc, pd_std_m1_val]; norm_num]
  unfold dashboard_classify
  norm_num

theorem dash_m2_red :
    dashboard_metric_severity cols0 rowsD.tail (rowsD.getLastD ⟨0, fun _ => none⟩) rule0 "m2"
      = some .red := by
  rw [dashboard_metric_decrease_eq cols0 rowsD.tail (rowsD.getLastD ⟨0, fun _ => none⟩)
    rule0 "m2" [15, 13, 2] (by decide) rfl rfl (by decide)]
  rw [show (((rowsD.getLastD ⟨0, fun _ => none⟩).values "m2").getD 0) = 2 from rfl,
    show mean [(15:ℝ), 13, 2] = 10 by simp [mean]; norm_num,
    show dashboard_calculate_swc [(15:ℝ), 13, 2] = 1.4 by
      rw [dashboard_calculate_swc, pd_std_m2_val]; norm_num]
  unfold dashboard_classify
  norm_num

theorem dash_flag_rowsD : dashboard_flag_rule cols0 rowsD rule0 = some ("m2", .red) := by
  show dashboard_scan cols0 rowsD.tail (rowsD.getLastD ⟨0, fun _ => none⟩) rule0 ["m1", "m2"]
    = some ("m2", .red)
  simp only [dashboard_scan, dash_m1_green, dash_m2_red]
  rfl

theorem splitIndex_eq_floor (n : ℕ) : splitIndex n = Nat.floor ((0.6 : ℚ) * n) := by
  have h : (0.6 : ℚ) * n = ((3 * n : ℕ) : ℚ) / ((5 : ℕ) : ℚ) := by
    push_cast
    norm_num
    ring
  rw [splitIndex, h, Nat.floor_div_nat, Nat.floor_natCast]

theorem getLastD_eq_getD_last (l : List ℝ) (d : ℝ) :
    l.getLastD d = l.getD (l.length - 1) d := by
  induction l generalizing d with
  | nil => rfl
  | cons a l ih =>
    cases l with
    | nil => rfl
    | cons b t =>
      rw [List.getLastD_cons, ih a]
      have hlt : t.length < (b :: t).length := by simp
      show (b :: t).getD t.length a = (a :: b :: t).getD ((a :: b :: t).length - 1) d
      have h2 : (a :: b :: t).length - 1 = t.length + 1 := by simp
      rw [h2]
      rw [List.getD_eq_getElem _ _ hlt]
      rw [show (a :: b :: t).getD (t.length + 1) d = (b :: t).getD t.length d from rfl]
      rw [List.getD_eq_getElem _ _ hlt]

theorem evalMetric_none_of_short (cols : List String) (rows : List Row)
    (rule : DecisionRule) (m : String) (h : (dropna rows m).length < 3) :
    evalMetric cols rows rule m = none ∧ metricTier cols rows rule m = none := by
  constructor <;> · simp only [evalMetric, metricTier]; split_ifs <;> simp_all

theorem evalMetric_none_of_short_window (cols : List String) (rows : List Row)
    (rule : DecisionRule) (m : String)
    (h : ((dropna rows m).take (splitIndex (dropna rows m).length)).length < 2) :
    evalMetric cols rows rule m = none ∧ metricTier cols rows rule m = none := by
  constructor <;> · simp only [evalMetric, metricTier]; split_ifs <;> simp_all

/-- C1 (amended, categorize_athletes part): an athlete is flagged for a rule
by the categorize_athletes evaluator iff the athlete has at least 5 records
and every metric listed in the rule independently produces a defined,
non-normal severity tier; and as soon as one metric produces no tier or the
normal tier, the metric loop returns unflagged whatever metrics remain
(short-circuit). -/
theorem flag_iff_all_metrics_nonnormal (cols : List String) (rule : DecisionRule)
    (rows : List Row) :
    ((∃ w, categorize_athletes_eval cols rule rows = some w) ↔
      (5 ≤ rows.length ∧ ∀ m ∈ rule.metrics,
        ∃ t, metricTier cols rows rule m = some t ∧ t ≠ .normal))
    ∧ (∀ (m : String) (rest : List String) (worst : Severity),
        (metricTier cols rows rule m = none ∨ metricTier cols rows rule m = some .normal) →
        evalMetrics cols rows rule (m :: rest) worst = none) := by
  constructor
  · unfold categorize_athletes_eval
    by_cases h5 : rows.length < 5
    · rw [if_pos h5]
      constructor
      · rintro ⟨w, hw⟩
        exact absurd hw (by simp)
      · rintro ⟨hlen, -⟩
        omega
    · rw [if_neg h5]
      rw [evalMetrics_isSome_iff]
      constructor
      · intro h
        exact ⟨by omega, fun m hm => (evalMetric_ne_none_iff cols rows rule m).mp (h m hm)⟩
      · rintro ⟨-, h⟩
        exact fun m hm => (evalMetric_ne_none_iff cols rows rule m).mpr (h m hm)
  · intro m rest worst hbad
    have hnone : evalMetric cols rows rule m = none := by
      rw [evalMetric_eq_tier_bind]
      rcases hbad with h | h <;> rw [h] <;> rfl
    simp [evalMetrics, hnone]

/-- C1 counterexample: on the five-record athlete rowsD and the two-metric
decrease rule rule0, force_plate_dashboard.evaluate_athlete computes the
normal (green) tier for the first metric m1 and nevertheless flags the
athlete for the rule, at the second metric m2 — so its flagging is not
"every metric non-normal" and a normal metric does not short-circuit the
rule to unflagged. -/
theorem dashboard_flags_despite_normal_metric :
    dashboard_metric_severity cols0 (rowsD.filter (fun r => (maxDate rowsD - 180) ≤ r.date))
        (rowsD.getLastD ⟨0, fun _ => none⟩) rule0 "m1" = some .green
    ∧ dashboard_flag_rule cols0 rowsD rule0 = some ("m2", .red)
    ∧ 5 ≤ rowsD.length :=
  ⟨by rw [dashD_base]; exact dash_m1_green, dash_flag_rowsD, by decide⟩

/-- C2: the severity classifiers of demo_report (threshold table),
generate_html_report (literal thresholds) and force_plate_dashboard
(non-strict comparisons from the least severe side) all realise the spec's
cascade: critical when |d| > 2.0 s, else warning when |d| > 1.5 s, else
caution when |d| > 1.0 s, else normal, first match winning (proved for every
s, in particular every s ≥ 0). -/
theorem severity_cascade_matches_spec (d s : ℝ) :
    classify_severity d s = spec_classify d s
    ∧ html_classify_severity d s = spec_classify d s
    ∧ dashboard_classify d s = severity_color (spec_classify d s) :=
  ⟨classify_eq_spec d s, html_classify_eq_spec d s, dashboard_classify_eq_spec d s⟩

/-- C3: whenever categorize_athletes flags an athlete for a rule, the
severity recorded on the flag is the single most severe tier among the
rule's per-metric tiers under critical > warning > caution (the fold of the
source's sev_order comparison); in particular tiers {warning, caution} give
warning and {critical, warning, caution} give critical. -/
theorem flag_severity_is_worst_tier (cols : List String) (rule : DecisionRule)
    (rows : List Row) (w : Severity)
    (h : categorize_athletes_eval cols rule rows = some w) :
    w = worstOf (rule.metrics.map (fun m => (metricTier cols rows rule m).getD .normal))
    ∧ worstOf [.warning, .caution] = .warning
    ∧ worstOf [.critical, .warning, .caution] = .critical := by
  refine ⟨?_, by decide, by decide⟩
  unfold categorize_athletes_eval at h
  by_cases h5 : rows.length < 5
  · rw [if_pos h5] at h
    exact absurd h (by simp)
  · rw [if_neg h5] at h
    have hall : ∀ m ∈ rule.metrics, evalMetric cols rows rule m ≠ none :=
      (evalMetrics_isSome_iff cols rows rule rule.metrics .normal).mp ⟨w, h⟩
    have hmap : rule.metrics.map (fun m => (evalMetric cols rows rule m).getD .normal)
        = rule.metrics.map (fun m => (metricTier cols rows rule m).getD .normal) := by
      apply List.map_congr_left
      intro m hm
      rcases Option.ne_none_iff_exists'.mp (hall m hm) with ⟨s, hs⟩
      rw [hs, ((evalMetric_some_iff cols rows rule m s).mp hs).1]
    rw [evalMetrics_worst_eq cols rows rule rule.metrics .normal w h, hmap]
    rfl

/-- C3 witness: the concrete five-record athlete rows0 is flagged for rule0
with recorded severity warning, the worst of its per-metric tiers warning
(m1) and caution (m2). -/
theorem flag_severity_is_worst_tier_witness :
    categorize_athletes_eval cols0 rule0 rows0 = some .warning
    ∧ Severity.warning
        = worstOf (rule0.metrics.map (fun m => (metricTier cols0 rows0 rule0 m).getD .normal)) :=
  ⟨demo_eval_rows0, (flag_severity_is_worst_tier cols0 rule0 rows0 .warning demo_eval_rows0).1⟩

/-- C4: under the proportional-split policy the baseline window is the first
floor(0.6 n) values of the metric's non-missing series (the source's
`int(len * 0.6)` equals that floor), the current value is the last value
(index n - 1), the metric is disqualified when the full series has fewer
than 3 values or the baseline window fewer than 2, and a 10-value series
gets the first 6 values as its window. -/
theorem proportional_split_baseline (cols : List String) (rule : DecisionRule)
    (rows : List Row) (m : String) :
    splitIndex (dropna rows m).length = Nat.floor ((0.6 : ℚ) * (dropna rows m).length)
    ∧ ((dropna rows m).length < 3 →
        evalMetric cols rows rule m = none ∧ metricTier cols rows rule m = none)
    ∧ (((dropna rows m).take (splitIndex (dropna rows m).length)).length < 2 →
        evalMetric cols rows rule m = none ∧ metricTier cols rows rule m = none)
    ∧ ((dropna rows m).length = 10 →
        (dropna rows m).take (splitIndex (dropna rows m).length) = (dropna rows m).take 6)
    ∧ (dropna rows m).getLastD 0 = (dropna rows m).getD ((dropna rows m).length - 1) 0 := by
  refine ⟨splitIndex_eq_floor _, evalMetric_none_of_short cols rows rule m,
    evalMetric_none_of_short_window cols rows rule m, ?_, getLastD_eq_getD_last _ _⟩
  intro h10
  rw [h10]
  rfl

/-- C5 (amended): the numpy-based calculate_swc of demo_report,
generate_real_report and generate_html_report is 0.2 times the population
standard deviation (divisor n), and on a two-value window equals
0.2 (|a - b| / 2); the pandas-based calculate_swc of generate_training_report
and force_plate_dashboard is instead 0.2 times the sample standard deviation
(divisor n - 1); the baseline mean is the arithmetic mean in all variants. -/
theorem swc_formulas (l : List ℝ) (a b : ℝ) :
    calculate_swc l = 0.2 * population_std l
    ∧ training_calculate_swc l = 0.2 * sample_std l
    ∧ dashboard_calculate_swc l = 0.2 * sample_std l
    ∧ calculate_swc [a, b] = 0.2 * (|a - b| / 2)
    ∧ mean l = l.sum / l.length :=
  ⟨rfl, rfl, rfl, by rw [calculate_swc, np_std_pair], rfl⟩

/-- C5 counterexample: on the baseline window [0, 2] the pandas-based SWC of
generate_training_report is 0.2 sqrt 2 (sample standard deviation, divisor
n - 1 = 1) and not 0.2 times the population standard deviation 1. -/
theorem pandas_swc_not_population_std :
    training_calculate_swc [0, 2] ≠ 0.2 * population_std [0, 2] := by
  have hp : population_std [(0:ℝ), 2] = 1 := by
    unfold population_std
    exact sqrt_eval (by norm_num) (by simp [mean]; norm_num)
  have hs : pd_std [(0:ℝ), 2] = Real.sqrt 2 := by
    unfold pd_std
    norm_num [mean]
  intro h
  rw [training_calculate_swc, hs, hp] at h
  have h2 : Real.sqrt 2 = 1 := mul_left_cancel₀ (by norm_num) h
  have h4 : (Real.sqrt 2) ^ 2 = 2 := Real.sq_sqrt (by norm_num)
  rw [h2] at h4
  norm_num at h4

/-- C6 (amended): the categorize_athletes evaluator of demo_report (and
generate_real_report, generate_training_report) skips every athlete with
fewer than 5 records for every rule — in particular the 4-record athlete
rows4 — while the 5-record qualifying athlete rows0 is flagged; the
module-level loop of generate_html_report instead skips only athletes with
fewer than 4 records. -/
theorem record_gates (cols : List String) (rule : DecisionRule) (rows : List Row) :
    (rows.length < 5 → categorize_athletes_eval cols rule rows = none)
    ∧ (rows.length < 4 → html_categorize_eval cols rule rows = none)
    ∧ categorize_athletes_eval cols0 rule0 rows0 = some .warning
    ∧ rows0.length = 5
    ∧ categorize_athletes_eval cols0 rule0 rows4 = none
    ∧ rows4.length = 4 :=
  ⟨fun h => by unfold categorize_athletes_eval; rw [if_pos h],
   fun h => by unfold html_categorize_eval; rw [if_pos h],
   demo_eval_rows0, rfl,
   by unfold categorize_athletes_eval; rw [if_pos (by decide)], rfl⟩

/-- C6 counterexample: the 4-record athlete rows4 is flagged (as critical)
by the analysis loop of generate_html_report, whose record gate is
`len(athlete_data) < 4`; so an athlete with exactly 4 total records is not
excluded from every rule. -/
theorem html_flags_four_record_athlete :
    rows4.length = 4 ∧ html_categorize_eval cols0 rule0 rows4 = some .critical :=
  ⟨rfl, html_eval_rows4⟩

/-- C7: for a rule with trend 'absolute' and evaluable data, the metric's
current value is compared directly against the rule's literal threshold —
exceeding it records the critical tier, not exceeding it yields the normal
tier and an unflagged result — and an absolute rule can never produce the
caution or warning tier; when the current value does not exceed the
threshold the whole rule evaluates unflagged whatever metrics remain. -/
theorem absolute_rule_threshold_only (cols : List String) (rows : List Row)
    (rule : DecisionRule) (m : String) :
    (rule.trend = "absolute" → m ∈ cols → ¬ (dropna rows m).length < 3 →
      ¬ ((dropna rows m).take (splitIndex (dropna rows m).length)).length < 2 →
      (evalMetric cols rows rule m
          = if (dropna rows m).getLastD 0 > rule.threshold then some .critical else none)
        ∧ metricTier cols rows rule m
          = some (if (dropna rows m).getLastD 0 > rule.threshold then .critical else .normal))
    ∧ (rule.trend = "absolute" →
        evalMetric cols rows rule m ≠ some .warning
        ∧ evalMetric cols rows rule m ≠ some .caution
        ∧ metricTier cols rows rule m ≠ some .warning
        ∧ metricTier cols rows rule m ≠ some .caution)
    ∧ (rule.trend = "absolute" → ¬ (dropna rows m).getLastD 0 > rule.threshold →
        ∀ (rest : List String) (worst : Severity),
          evalMetrics cols rows rule (m :: rest) worst = none) := by
  refine ⟨?_, ?_, ?_⟩
  · intro habs hm h3 h2
    have ht := metricTier_absolute_eq cols rows rule m (dropna rows m)
      ((dropna rows m).take (splitIndex (dropna rows m).length)) hm habs rfl h3 rfl h2
    refine ⟨?_, ht⟩
    rw [evalMetric_eq_tier_bind, ht]
    by_cases hc : (dropna rows m).getLastD 0 > rule.threshold
    · rw [if_pos hc, if_pos hc]
      rfl
    · rw [if_neg hc, if_neg hc]
      rfl
  · intro habs
    have hev : ∀ s : Severity, evalMetric cols rows rule m = some s →
        s = .critical := by
      intro s hs
      simp only [evalMetric] at hs
      split_ifs at hs
      exact (Option.some.inj hs).symm
    have htv : ∀ s : Severity, metricTier cols rows rule m = some s →
        s = .critical ∨ s = .normal := by
      intro s hs
      simp only [metricTier] at hs
      split_ifs at hs <;>
        first
          | exact Option.noConfusion hs
          | exact Or.inl (Option.some.inj hs).symm
          | exact Or.inr (Option.some.inj hs).symm
    refine ⟨fun h => ?_, fun h => ?_, fun h => ?_, fun h => ?_⟩
    · exact absurd (hev _ h) (by decide)
    · exact absurd (hev _ h) (by decide)
    · rcases htv _ h with h1 | h1 <;> exact absurd h1 (by decide)
    · rcases htv _ h with h1 | h1 <;> exact absurd h1 (by decide)
  · intro habs hc rest worst
    have hnone : evalMetric cols rows rule m = none := by
      simp only [evalMetric]
      split_ifs <;> rfl
    simp [evalMetrics, hnone]

/-- C8: with SWC = 0 the classifiers perform no division and return the
maximal tier on any nonzero deviation and the normal tier on a zero
deviation, in both the demo_report and the dashboard variant. -/
theorem swc_zero_no_division (d : ℝ) :
    classify_severity d 0 = (if d = 0 then Severity.normal else Severity.critical)
    ∧ dashboard_classify d 0 = (if d = 0 then DColor.green else DColor.red) := by
  rcases eq_or_ne d 0 with h | h
  · subst h
    constructor
    · unfold classify_severity SEVERITY_THRESHOLDS
      norm_num
    · unfold dashboard_classify
      norm_num
  · have h0 : 0 < |d| := abs_pos.mpr h
    constructor
    · unfold classify_severity SEVERITY_THRESHOLDS
      rw [if_pos (by simpa using h0), if_neg h]
    · unfold dashboard_classify
      rw [if_neg (by simpa using h0.not_le), if_neg (by simpa using h0.not_le),
        if_neg (by simpa using h0.not_le), if_neg h]

/-- C9: the signed deviation handed to the severity classifier is
baseline_mean - current_value for trend 'decrease' and
current_value - baseline_mean for trend 'increase', both in the
categorize_athletes evaluator (demo_report / generate_real_report /
generate_training_report share these two lines verbatim) and in
force_plate_dashboard.evaluate_athlete. -/
theorem deviation_sign_convention (cols : List String) (rows base_rows : List Row)
    (current : Row) (rule : DecisionRule) (m : String) :
    (rule.trend = "decrease" → m ∈ cols → ¬ (dropna rows m).length < 3 →
      ¬ ((dropna rows m).take (splitIndex (dropna rows m).length)).length < 2 →
      metricTier cols rows rule m = some (classify_severity
        (mean ((dropna rows m).take (splitIndex (dropna rows m).length))
          - (dropna rows m).getLastD 0)
        (calculate_swc ((dropna rows m).take (splitIndex (dropna rows m).length)))))
    ∧ (rule.trend = "increase" → m ∈ cols → ¬ (dropna rows m).length < 3 →
      ¬ ((dropna rows m).take (splitIndex (dropna rows m).length)).length < 2 →
      metricTier cols rows rule m = some (classify_severity
        ((dropna rows m).getLastD 0
          - mean ((dropna rows m).take (splitIndex (dropna rows m).length)))
        (calculate_swc ((dropna rows m).take (splitIndex (dropna rows m).length)))))
    ∧ (rule.trend = "decrease" → m ∈ cols → ¬ (dropna base_rows m).length < 3 →
      dashboard_metric_severity cols base_rows current rule m
        = some (dashboard_classify (mean (dropna base_rows m) - (current.values m).getD 0)
            (dashboard_calculate_swc (dropna base_rows m))))
    ∧ (rule.trend = "increase" → m ∈ cols → ¬ (dropna base_rows m).length < 3 →
      dashboard_metric_severity cols base_rows current rule m
        = some (dashboard_classify ((current.values m).getD 0 - mean (dropna base_rows m))
            (dashboard_calculate_swc (dropna base_rows m)))) :=
  ⟨fun hdec hm h3 h2 => metricTier_decrease_eq cols rows rule m _ _ hm hdec rfl h3 rfl h2,
   fun hinc hm h3 h2 => metricTier_increase_eq cols rows rule m _ _ hm hinc rfl h3 rfl h2,
   fun hdec hm h3 => dashboard_metric_decrease_eq cols base_rows current rule m _ hm hdec rfl h3,
   fun hinc hm h3 => dashboard_metric_increase_eq cols base_rows current rule m _ hm hinc rfl h3⟩

/-- C10: whenever the categorize_athletes evaluator flags an athlete for a
rule with a non-empty metric list, the tracked worst severity is never
normal, so the emoji lookup and the severity sort-key lookup — partial maps
defined only on critical, warning and caution — are defined on it and cannot
raise a KeyError. -/
theorem flagged_severity_lookups_total (cols : List String) (rule : DecisionRule)
    (rows : List Row) (w : Severity) (hne : rule.metrics ≠ [])
    (h : categorize_athletes_eval cols rule rows = some w) :
    w ≠ .normal ∧ (flag_emoji w).isSome ∧ (flag_sort_key w).isSome := by
  have hw : w ≠ .normal := by
    unfold categorize_athletes_eval at h
    by_cases h5 : rows.length < 5
    · rw [if_pos h5] at h
      exact absurd h (by simp)
    · rw [if_neg h5] at h
      cases hms : rule.metrics with
      | nil => exact absurd hms hne
      | cons m rest =>
        rw [hms] at h
        exact evalMetrics_cons_ne_normal cols rows rule m rest w h
  refine ⟨hw, ?_, ?_⟩
  · cases w <;> first | rfl | exact absurd rfl hw
  · cases w <;> first | rfl | exact absurd rfl hw

/-- C10 witness: on the concrete flagged run (rows0 flagged as warning for
rule0, whose metric list is non-empty) both lookups are defined. -/
theorem flagged_severity_lookups_total_witness :
    rule0.metrics ≠ [] ∧ categorize_athletes_eval cols0 rule0 rows0 = some .warning
    ∧ (Severity.warning ≠ .normal
        ∧ (flag_emoji .warning).isSome ∧ (flag_sort_key .warning).isSome) :=
  ⟨by decide, demo_eval_rows0,
    flagged_severity_lookups_total cols0 rule0 rows0 .warning (by decide) demo_eval_rows0⟩

theorem eval_rows0_absolute : evalMetric cols0 rows0 ruleA "m1" = some .critical := by
  rw [evalMetric_eq_tier_bind,
    metricTier_absolute_eq cols0 rows0 ruleA "m1" [100, 140, 120, 113] [100, 140]
      (by decide) rfl rfl (by decide) rfl (by decide)]
  rw [show (([100, 140, 120, 113] : List ℝ).getLastD 0) = 113 from rfl]
  rw [if_pos (by norm_num [ruleA] : (113 : ℝ) > ruleA.threshold)]
  rfl
